import Mathlib

/-!
A model of `lib/main.js` of ide-java.

`JavaLanguageClient` is embedded as pure functions over an explicit client state.
Everything the class obtains from its surroundings (the platform name, the
configuration store, the process environment, `path.join`, `DownloadFile`,
`decompress`, the errors of `fs.access`, `fs.mkdirSync` and `fs.unlinkSync` that the
list of existing paths does not explain) is a field of `Host`.
A promise is modelled by its settled outcome: `Except.ok` when it resolves and
`Except.error msg` when it rejects with `Error(msg)`; the state returned next to
the outcome holds every effect that happened before the promise settled.
-/

set_option autoImplicit false

namespace IdeJava

/-! ## Constants of the module -/

def serverDownloadUrl : String :=
  "http://download.eclipse.org/jdtls/snapshots/jdt-language-server-0.3.0-201708311739.tar.gz"

def serverDownloadSize : Nat := 31859061

def serverLauncher : String :=
  "/plugins/org.eclipse.equinox.launcher_1.4.0.v20161219-1356.jar"

/-- The value of `getServerName ()`. -/
def getServerName : String := "Eclipse JDT"

/-! ## JavaScript values the module relies on -/

/-- JavaScript truthiness of a value that is a string, `undefined` or `null`
(`none` stands for both `undefined` and `null`): only a non-empty string is truthy. -/
def truthy : Option String → Bool
  | some s => s != ""
  | none => false

/-- The names every object literal inherits from `Object.prototype`. -/
def objectPrototypeKeys : List String :=
  ["constructor", "hasOwnProperty", "isPrototypeOf", "propertyIsEnumerable",
   "toLocaleString", "toString", "valueOf", "__proto__",
   "__defineGetter__", "__defineSetter__", "__lookupGetter__", "__lookupSetter__"]

/-- The result of reading `obj[key]` on an object literal. -/
inductive Lookup (α : Type) where
  /-- An own property holding `v`. -/
  | own (v : α)
  /-- No own property, the value comes from `Object.prototype`; it is never `null`. -/
  | inherited (key : String)
  /-- The read yields `undefined`. -/
  | undefined

/-- Reading `obj[key]` where `obj` is an object literal with the own properties `props`:
own properties first, then the prototype chain, which for a literal is `Object.prototype`. -/
def getProperty {α : Type} (props : List (String × α)) (key : String) : Lookup α :=
  match props.lookup key with
  | some v => Lookup.own v
  | none => if key ∈ objectPrototypeKeys then Lookup.inherited key else Lookup.undefined

/-- The test `needle` occurs in `hay` at its very start. -/
def startsWith : List Char → List Char → Bool
  | _, [] => true
  | [], _ :: _ => false
  | c :: hay, d :: needle => c == d && startsWith hay needle

/-- JavaScript `hay.includes(needle)` on character lists. -/
def includesChars : List Char → List Char → Bool
  | [], needle => startsWith [] needle
  | c :: hay, needle => startsWith (c :: hay) needle || includesChars hay needle

/-- JavaScript `hay.includes(needle)`. -/
def includes (hay needle : String) : Bool := includesChars hay.data needle.data

/-- Whether the regular expression `/^Started$/` matches `s` at offset `i`: `^` holds only
at offset 0, the literal must follow, and `$` (no `m` flag) holds only at the end of input. -/
def matchStartedAt (s : List Char) (i : Nat) : Bool :=
  i == 0 && startsWith (s.drop i) "Started".data && i + "Started".length == s.length

/-- JavaScript `s.replace(/^Started$/, '')`: the first match, searched from offset 0 upward, is
cut out; without a match the string is returned as it is. -/
def replaceStarted (s : String) : String :=
  match (List.range (s.length + 1)).find? (matchStartedAt s.data) with
  | some i => String.mk (s.data.take i ++ s.data.drop (i + "Started".length))
  | none => s

/-! ## The file system -/

/-- The files and directories that exist: each path with whether it is readable. -/
abbrev FS := List (String × Bool)

/-- Whether `path` exists in the file system. -/
def pathExists (fs : FS) (path : String) : Bool := (fs.lookup path).isSome

/-! ## The host -/

/-- What `DownloadFile` did: the percentages it passed to the progress callback, in order
and as the template literal renders them, and the file system it left, or its error. -/
structure Download where
  progress : List String
  result : Except String FS

/-- Everything `JavaLanguageClient` takes from its surroundings. -/
structure Host where
  /-- The value of `process.platform`. -/
  platform : String
  /-- The value of `__dirname`. -/
  dirname : String
  /-- The value of `this.name`, set by the base class. -/
  name : String
  /-- The value of `atom.config.get` for the key `ide-java.javaHome`. -/
  javaHome : Option String
  /-- The value of `process.env['JDK_HOME']`. -/
  jdkHome : Option String
  /-- The value of `process.env['JAVA_HOME']`. -/
  javaHomeEnv : Option String
  /-- The function `path.join`. -/
  join : List String → String
  /-- The function `DownloadFile (url, file, progress, size)` of atom-languageclient. -/
  downloadFile : FS → String → String → Nat → Download
  /-- The function `decompress (file, dir)`. -/
  decompress : FS → String → String → Except String FS
  /-- The error code `fs.access` reports for a path that does not exist when the cause is
  not the missing last component, such as `ENOTDIR` for a parent that is a regular file,
  `EACCES` for a parent that cannot be searched or `ENAMETOOLONG`; `none` for the
  ordinary `ENOENT`. -/
  accessFault : FS → String → Option String
  /-- A failure of `fs.mkdirSync` that the model of the file system does not explain. -/
  mkdirFault : FS → String → Option String
  /-- A failure of `fs.unlinkSync` that the model of the file system does not explain. -/
  unlinkFault : FS → String → Option String
  /-- Whether calling the inherited `Object.prototype` member of this name with no
  arguments returns (`true`) or throws (`false`). -/
  inheritedCallReturns : String → Bool
  /-- How a template literal renders the inherited `Object.prototype` member of this name. -/
  inheritedText : String → String

/-- The error code `fs.access(path, fs.R_OK, cb)` hands to its callback, `none` for no
error. A path that exists is readable or gives `EACCES`; a path that does not exist
gives `ENOENT` or the error the host reports in its place. -/
def fsAccess (h : Host) (fs : FS) (path : String) : Option String :=
  match fs.lookup path with
  | none =>
    match h.accessFault fs path with
    | some code => some code
    | none => some "ENOENT"
  | some true => none
  | some false => some "EACCES"

/-- The call `fs.mkdirSync(path)`. -/
def mkdirSync (h : Host) (fs : FS) (path : String) : Except String FS :=
  match h.mkdirFault fs path with
  | some e => Except.error e
  | none => if pathExists fs path then Except.error "EEXIST" else Except.ok ((path, true) :: fs)

/-- The call `fs.unlinkSync(path)`. -/
def unlinkSync (h : Host) (fs : FS) (path : String) : Except String FS :=
  match h.unlinkFault fs path with
  | some e => Except.error e
  | none =>
    if pathExists fs path then Except.ok (fs.filter (fun e => e.1 != path))
    else Except.error "ENOENT"

/-! ## Java executable resolution -/

/-- The method `getJavaPath`: the first truthy element of the three-element array. -/
def getJavaPath (h : Host) : Option String :=
  match [h.javaHome, h.jdkHome, h.javaHomeEnv].find? truthy with
  | some j => j
  | none => none

/-- The method `getJavaCommand`. -/
def getJavaCommand (h : Host) : String :=
  match getJavaPath h with
  | none => "java"
  | some javaPath => h.join [javaPath, "bin", "java"]

/-! ## The client state and its effects -/

/-- Equality of settled outcomes can be decided. -/
instance decEqExcept {ε α : Type} [DecidableEq ε] [DecidableEq α] : DecidableEq (Except ε α)
  | Except.ok a, Except.ok b =>
    if h : a = b then isTrue (by rw [h]) else isFalse (fun e => h (by cases e; rfl))
  | Except.error a, Except.error b =>
    if h : a = b then isTrue (by rw [h]) else isFalse (fun e => h (by cases e; rfl))
  | Except.ok _, Except.error _ => isFalse (fun e => by cases e)
  | Except.error _, Except.ok _ => isFalse (fun e => by cases e)

/-- The three kinds of prompt of `atom.notifications`. -/
inductive Channel where
  | error
  | warning
  | info
  deriving DecidableEq, Repr

/-- One entry of `notification.commands`. -/
structure Command where
  title : String
  command : String
  deriving DecidableEq, Repr

/-- The payload of `language/actionableNotification`; `commands` is `none` when the
field is not an array. -/
structure Notification where
  severity : Nat
  message : String
  commands : Option (List Command)
  deriving DecidableEq, Repr

/-- A button of a prompt: its text and the command name its `onDidClick` closure holds. -/
structure Button where
  text : String
  command : String
  deriving DecidableEq, Repr

/-- The options object handed to `atom.notifications`. -/
structure Options where
  dismissable : Bool
  detail : String
  buttons : Option (List Button)
  deriving DecidableEq, Repr

/-- A prompt created by `addError`, `addWarning` or `addInfo`. -/
structure Prompt where
  channel : Channel
  message : String
  options : Options
  deriving DecidableEq, Repr

/-- The calls that reach outside the class, in the order they are made. -/
inductive Effect where
  | access (path : String)
  | mkdir (path : String)
  | download (url file : String) (size : Nat)
  | decompress (file dir : String)
  | unlink (path : String)
  | spawn (command : String) (args : List String) (cwd : String)
  | loggerLog (msg : String)
  | loggerDebug (msg : String)
  | consoleLog (msg : String)
  | updateStatusBar (text : String)
  | addNotification (channel : Channel) (message : String) (id : Nat)
  | call (command : String)
  | callInherited (key : String)
  | dismiss (id : Nat)
  deriving DecidableEq, Repr

/-- The fields of the client together with the world it acts on. -/
structure Client where
  /-- The file system. -/
  fs : FS
  /-- The value of `this.statusElement.textContent`. -/
  statusText : String
  /-- The value of `this.ignoreIncompleteClasspath`. -/
  ignoreIncompleteClasspath : Bool
  /-- The prompts created so far; a prompt is identified by its position. -/
  prompts : List Prompt
  /-- Every outside call made so far, oldest first. -/
  trace : List Effect
  deriving DecidableEq, Repr

/-- The handle `cp.spawn` returns. -/
structure ChildProcess where
  command : String
  args : List String
  cwd : String
  deriving DecidableEq, Repr

/-- The client right after `constructor ()` ran, in a world with file system `fs`. -/
def constructor (fs : FS) : Client :=
  { fs := fs, statusText := "", ignoreIncompleteClasspath := false, prompts := [], trace := [] }

/-- The object `this.commands` built by the constructor: one own property, whose
function sets the flag. -/
def commands : List (String × (Client → Client)) :=
  [("java.ignoreIncompleteClasspath", fun s => { s with ignoreIncompleteClasspath := true })]

/-- Record one outside call. -/
def emit (s : Client) (e : Effect) : Client := { s with trace := s.trace ++ [e] }

/-- A settled promise next to the state it was settled in. -/
abbrev Settled (α : Type) := Except String α × Client

/-- The call `promise.then(f)` with a fulfilment handler only: `f` runs when the promise
resolved, a rejection is passed on untouched. -/
def thenDo {α β : Type} (f : α → Client → Settled β) (r : Settled α) : Settled β :=
  match r with
  | (Except.ok a, s) => f a s
  | (Except.error e, s) => (Except.error e, s)

/-- The method `updateStatusBar`. -/
def updateStatusBar (h : Host) (s : Client) (text : String) : Client :=
  { s with statusText := h.name ++ " " ++ text,
           trace := s.trace ++ [Effect.updateStatusBar text] }

/-- The value `fileExists` resolves with, given the error of `fs.access`:
`!error || error.code !== 'ENOENT'`. -/
def fileExistsResult (error : Option String) : Bool :=
  match error with
  | none => true
  | some code => code != "ENOENT"

/-- The method `fileExists`; its promise always resolves. -/
def fileExists (h : Host) (s : Client) (path : String) : Settled Bool :=
  (Except.ok (fileExistsResult (fsAccess h s.fs path)), emit s (Effect.access path))

/-- The method `isServerInstalled`. -/
def isServerInstalled (h : Host) (s : Client) (serverHome : String) : Settled Bool :=
  fileExists h s (h.join [serverHome, serverLauncher])

/-- The call `fs.mkdirSync(path)` made by the client. -/
def callMkdirSync (h : Host) (s : Client) (path : String) : Settled Unit :=
  match mkdirSync h s.fs path with
  | Except.ok fs => (Except.ok (), { emit s (Effect.mkdir path) with fs := fs })
  | Except.error e => (Except.error e, emit s (Effect.mkdir path))

/-- The call `fs.unlinkSync(path)` made by the client. -/
def callUnlinkSync (h : Host) (s : Client) (path : String) : Settled Unit :=
  match unlinkSync h s.fs path with
  | Except.ok fs => (Except.ok (), { emit s (Effect.unlink path) with fs := fs })
  | Except.error e => (Except.error e, emit s (Effect.unlink path))

/-- The call `DownloadFile(url, file, progress, size)` with the progress callback of
`installServer`, which shows each percentage in the status bar. -/
def callDownloadFile (h : Host) (s : Client) (url file : String) (size : Nat) : Settled Unit :=
  let d := h.downloadFile s.fs url file size
  let s1 := d.progress.foldl
    (fun st percent => updateStatusBar h st ("downloading " ++ percent ++ "%"))
    (emit s (Effect.download url file size))
  match d.result with
  | Except.ok fs => (Except.ok (), { s1 with fs := fs })
  | Except.error e => (Except.error e, s1)

/-- The call `decompress(file, dir)`. -/
def callDecompress (h : Host) (s : Client) (file dir : String) : Settled Unit :=
  match h.decompress s.fs file dir with
  | Except.ok fs => (Except.ok (), { emit s (Effect.decompress file dir) with fs := fs })
  | Except.error e => (Except.error e, emit s (Effect.decompress file dir))

/-- The message of the error `installServer` throws when the launcher is still missing. -/
def installError : String := "Failed to install the " ++ getServerName ++ " language server"

/-- The method `installServer`. -/
def installServer (h : Host) (s : Client) (serverHome : String) : Settled Unit :=
  let localFileName := h.join [serverHome, "download.tar.gz"]
  fileExists h
      (emit s (Effect.loggerLog
        ("Downloading " ++ serverDownloadUrl ++ " to " ++ localFileName)))
      serverHome
    |> thenDo (fun doesExist s =>
        if !doesExist then callMkdirSync h s serverHome else (Except.ok (), s))
    |> thenDo (fun _ s =>
        callDownloadFile h s serverDownloadUrl localFileName serverDownloadSize)
    |> thenDo (fun _ s => (Except.ok (), updateStatusBar h s "unpacking"))
    |> thenDo (fun _ s => callDecompress h s localFileName serverHome)
    |> thenDo (fun _ s => fileExists h s (h.join [serverHome, serverLauncher]))
    |> thenDo (fun doesExist s =>
        if !doesExist then (Except.error installError, s) else (Except.ok (), s))
    |> thenDo (fun _ s => (Except.ok (), updateStatusBar h s "installed"))
    |> thenDo (fun _ s => callUnlinkSync h s localFileName)

/-- The method `installServerIfRequired`. -/
def installServerIfRequired (h : Host) (s : Client) (serverHome : String) : Settled Unit :=
  isServerInstalled h s serverHome
    |> thenDo (fun doesExist s =>
        if !doesExist then installServer h s serverHome else (Except.ok (), s))

/-- The own properties of the object literal indexed by `process.platform`. -/
def platformConfig : List (String × String) :=
  [("win32", "win"), ("darwin", "mac"), ("linux", "linux")]

/-- How the template literal in `startServerProcess` renders the looked-up `config`. -/
def renderConfig (h : Host) : Lookup String → String
  | Lookup.own v => v
  | Lookup.inherited key => h.inheritedText key
  | Lookup.undefined => "undefined"

/-- The method `startServerProcess`: a thrown error and a rejected promise are both
`Except.error`. The listener put on the `error` event of the child process runs after
the method has returned and is not part of it. -/
def startServerProcess (h : Host) (s : Client) : Settled ChildProcess :=
  match getProperty platformConfig h.platform with
  | Lookup.undefined =>
    (Except.error (getServerName ++ " not supported on " ++ h.platform), s)
  | config =>
    let serverHome := h.join [h.dirname, "..", "server"]
    let command := getJavaCommand h
    installServerIfRequired h s serverHome
      |> thenDo (fun _ s =>
          let args := ["-jar", h.join [serverHome, serverLauncher],
                       "-configuration", h.join [serverHome, "config_" ++ renderConfig h config]]
          let quote := String.singleton (Char.ofNat 34)
          let s1 := emit s (Effect.loggerDebug
            ("starting " ++ quote ++ command ++ " " ++ String.intercalate " " args ++ quote))
          (Except.ok { command := command, args := args, cwd := serverHome },
           emit s1 (Effect.spawn command args serverHome)))

/-! ## The notification bridge -/

/-- The handler `preInitialization` registers for `language/status`. -/
def onLanguageStatus (h : Host) (s : Client) (type message : String) : Client :=
  updateStatusBar h s (replaceStarted type ++ " " ++ message)

/-- The calls `atom.notifications.addError`, `addWarning` and `addInfo`: the new prompt
is returned by its position. -/
def addNotification (s : Client) (channel : Channel) (message : String) (options : Options) :
    Option Nat × Client :=
  (some s.prompts.length,
   { s with prompts := s.prompts ++ [{ channel := channel, message := message, options := options }],
            trace := s.trace ++ [Effect.addNotification channel message s.prompts.length] })

/-- The method `createNotification`; `none` is the `undefined` of the last case and of
a severity without a case. -/
def createNotification (s : Client) (severity : Nat) (message : String) (options : Options) :
    Option Nat × Client :=
  match severity with
  | 1 => addNotification s Channel.error message options
  | 2 => addNotification s Channel.warning message options
  | 3 => addNotification s Channel.info message options
  | 4 => (none, emit s (Effect.consoleLog message))
  | _ => (none, s)

/-- The method `actionableNotification`, the handler for
`language/actionableNotification`. -/
def actionableNotification (s : Client) (notification : Notification) : Client :=
  if s.ignoreIncompleteClasspath && includes notification.message "Classpath is incomplete"
  then s
  else
    let options : Options :=
      { dismissable := true, detail := getServerName,
        buttons := notification.commands.map
          (fun cs => cs.map (fun c => { text := c.title, command := c.command })) }
    (createNotification s notification.severity notification.message options).2

/-- The closure `onActionableButton` of the notification whose prompt is
`notificationDialog`. An inherited `Object.prototype` member is not `null`, so it is
called; when that call throws, the error leaves the closure before `dismiss ()`. -/
def onActionableButton (h : Host) (s : Client) (notificationDialog : Nat)
    (commandName : String) : Settled Unit :=
  match getProperty commands commandName with
  | Lookup.own commandFunction =>
    (Except.ok (), emit (commandFunction (emit s (Effect.call commandName)))
      (Effect.dismiss notificationDialog))
  | Lookup.inherited key =>
    if h.inheritedCallReturns key then
      (Except.ok (), emit (emit s (Effect.callInherited key)) (Effect.dismiss notificationDialog))
    else (Except.error "TypeError", emit s (Effect.callInherited key))
  | Lookup.undefined =>
    (Except.ok (), emit
      (emit s (Effect.consoleLog ("Unknown actionableNotification command '" ++ commandName ++ "'")))
      (Effect.dismiss notificationDialog))

/-- A click on button number `button` of prompt number `id`: its `onDidClick` runs
`onActionableButton` with the command of that button. Nothing happens when there is
no such prompt or button. -/
def click (h : Host) (s : Client) (id button : Nat) : Settled Unit :=
  match s.prompts.get? id with
  | none => (Except.ok (), s)
  | some p =>
    match p.options.buttons with
    | none => (Except.ok (), s)
    | some bs =>
      match bs.get? button with
      | none => (Except.ok (), s)
      | some b => onActionableButton h s id b.command

/-- What can happen to a client during a session. -/
inductive Event where
  | start
  | status (type message : String)
  | notification (n : Notification)
  | click (id button : Nat)
  deriving DecidableEq, Repr

/-- One event handled by the client. -/
def step (h : Host) (s : Client) : Event → Client
  | Event.start => (startServerProcess h s).2
  | Event.status type message => onLanguageStatus h s type message
  | Event.notification n => actionableNotification s n
  | Event.click id button => (click h s id button).2

/-- A sequence of events handled one after the other. -/
def run (h : Host) (s : Client) (events : List Event) : Client :=
  events.foldl (step h) s

/-! ## A concrete host, for evaluating the model -/

/-- The segments of a path between its `/` separators. -/
def splitSlash : List Char → List (List Char)
  | [] => [[]]
  | c :: cs =>
    match splitSlash cs with
    | [] => [[]]
    | seg :: rest => if c == '/' then [] :: seg :: rest else (c :: seg) :: rest

/-- One step of the normalisation of Node's POSIX `path.normalize`, on the segments
collected so far (last one first): empty and `.` segments vanish, `..` removes the
segment before it or stays when there is none to remove and the path is relative. -/
def pushSegment (allowAboveRoot : Bool) (stack : List (List Char)) (seg : List Char) :
    List (List Char) :=
  if seg == [] || seg == ['.'] then stack
  else if seg == ['.', '.'] then
    match stack with
    | top :: rest => if top == ['.', '.'] then seg :: stack else rest
    | [] => if allowAboveRoot then [seg] else []
  else seg :: stack

/-- Segments put together again with `/` between them. -/
def joinSlash : List (List Char) → List Char
  | [] => []
  | [seg] => seg
  | seg :: rest => seg ++ '/' :: joinSlash rest

/-- Node's POSIX `path.normalize`. -/
def posixNormalize (path : List Char) : List Char :=
  if path == [] then ['.']
  else
    let isAbsolute := path.head? == some '/'
    let trailingSeparator := path.getLast? == some '/'
    let body := joinSlash (((splitSlash path).foldl (pushSegment (!isAbsolute)) []).reverse)
    if body == [] then
      if isAbsolute then ['/'] else if trailingSeparator then ['.', '/'] else ['.']
    else
      (if isAbsolute then ['/'] else []) ++ body ++ (if trailingSeparator then ['/'] else [])

/-- Node's POSIX `path.join`: the non-empty arguments joined by `/`, then normalised. -/
def posixJoin (args : List String) : String :=
  String.mk (posixNormalize (joinSlash ((args.filter (fun a => a != "")).map String.data)))

/-- A Linux host whose download writes the archive and whose unpacking writes the
launcher. -/
def linuxHost : Host :=
  { platform := "linux"
    dirname := "/pkg/lib"
    name := "Java (Eclipse JDT)"
    javaHome := none
    jdkHome := none
    javaHomeEnv := none
    join := posixJoin
    downloadFile := fun fs _ file _ =>
      { progress := ["50", "100"], result := Except.ok ((file, true) :: fs) }
    decompress := fun fs _ dir => Except.ok ((posixJoin [dir, serverLauncher], true) :: fs)
    accessFault := fun _ _ => none
    mkdirFault := fun _ _ => none
    unlinkFault := fun _ _ => none
    inheritedCallReturns := fun key => key ∈ ["constructor", "toString", "isPrototypeOf"]
    inheritedText := fun key =>
      if key == "__proto__" then "[object Object]"
      else "function " ++ (if key == "constructor" then "Object" else key) ++
        "() \x7b [native code] \x7d" }

/-- The host `linuxHost` with an archive that holds no launcher. -/
def brokenArchiveHost : Host :=
  { linuxHost with decompress := fun fs _ dir => Except.ok ((posixJoin [dir, "readme"], true) :: fs) }

/-- The host `linuxHost` with an archive that unpacks `plugins` as a regular file: the
launcher does not exist, and the access check on it reports `ENOTDIR`. -/
def pluginsFileHost : Host :=
  { linuxHost with
    decompress := fun fs _ dir => Except.ok ((posixJoin [dir, "plugins"], true) :: fs)
    accessFault := fun fs path =>
      if path == "/pkg/server" ++ serverLauncher && pathExists fs "/pkg/server/plugins"
      then some "ENOTDIR" else none }

/-- The status updates the progress callback of `installServer` makes for these
percentages. -/
def downloadingEvents (percents : List String) : List Effect :=
  percents.map (fun percent => Effect.updateStatusBar ("downloading " ++ percent ++ "%"))

/-- The host `linuxHost` with the user setting and both environment variables set. -/
def allSetHost : Host :=
  { linuxHost with javaHome := some "/opt/u", jdkHome := some "/opt/a", javaHomeEnv := some "/opt/b" }

/-- The host `linuxHost` with both environment variables set and the user setting empty. -/
def envSetHost : Host :=
  { linuxHost with javaHome := some "", jdkHome := some "/opt/a", javaHomeEnv := some "/opt/b" }

/-- The host `linuxHost` on an operating system the client does not support. -/
def freebsdHost : Host := { linuxHost with platform := "freebsd" }

/-- The warning the Java language server sends for a project without a build file. -/
def classpathWarning : Notification :=
  { severity := 2
    message := "Classpath is incomplete. Only syntax errors will be reported"
    commands := some [{ title := "More Information", command := "java.ignoreIncompleteClasspath.help" },
                      { title := "Don't Show Again", command := "java.ignoreIncompleteClasspath" }] }

/-- The options `actionableNotification` builds for a notification. -/
def promptOptions (n : Notification) : Options :=
  { dismissable := true, detail := "Eclipse JDT",
    buttons := n.commands.map (fun cs => cs.map (fun c => { text := c.title, command := c.command })) }

/-- The client after `count` calls of `installServerIfRequired` in a row. -/
def installRepeatedly (h : Host) (serverHome : String) : Nat → Client → Client
  | 0, s => s
  | count + 1, s => installRepeatedly h serverHome count (installServerIfRequired h s serverHome).2

/-- A notification with one button, bound to a command name that is not registered. -/
def inheritedNameNotification : Notification :=
  { severity := 1, message := "Build failed", commands := some [{ title := "Fix", command := "toString" }] }

/-- The status text after the progress callback ran for these percentages. -/
def statusAfterProgress (h : Host) (percents : List String) (statusText : String) : String :=
  percents.foldl (fun _ percent => h.name ++ " " ++ ("downloading " ++ percent ++ "%")) statusText

/-- What `installServer` does before it calls `DownloadFile`. -/
def beforeDownload (h : Host) (s : Client) (localFileName serverHome : String) :
    List Effect :=
  [Effect.loggerLog ("Downloading " ++ serverDownloadUrl ++ " to " ++ localFileName),
   Effect.access serverHome] ++
  (if fileExistsResult (fsAccess h s.fs serverHome) then [] else [Effect.mkdir serverHome])

/-- A session after the classpath warning was shown: a status event, the warning
again, a click on an unknown command, a start of the server and one more status event. -/
def laterEvents : List Event :=
  [Event.status "Started" "Ready", Event.notification classpathWarning, Event.click 0 0,
   Event.start, Event.status "Message" "Building"]

/-! ## Facts about the JavaScript helpers -/

theorem startsWith_eq_of_length (hay needle : List Char) :
    startsWith hay needle = true → hay.length = needle.length → hay = needle := by
  induction hay generalizing needle with
  | nil =>
    intro _ hl
    cases needle with
    | nil => rfl
    | cons d ds => simp at hl
  | cons c cs ih =>
    intro hs hl
    cases needle with
    | nil => simp at hl
    | cons d ds =>
      simp only [startsWith, Bool.and_eq_true, beq_iff_eq] at hs
      simp only [List.length_cons, Nat.add_right_cancel_iff] at hl
      rw [hs.1, ih ds hs.2 hl]

theorem matchStartedAt_false (s : String) (hne : s ≠ "Started") (i : Nat) :
    matchStartedAt s.data i = false := by
  cases hm : matchStartedAt s.data i with
  | false => rfl
  | true =>
    exfalso
    simp only [matchStartedAt, Bool.and_eq_true, beq_iff_eq] at hm
    obtain ⟨⟨hi, hs⟩, hl⟩ := hm
    subst hi
    simp only [List.drop_zero, Nat.zero_add] at hs hl
    have hd : s.data = "Started".data := startsWith_eq_of_length _ _ hs (by
      rw [← hl]; rfl)
    apply hne
    cases s
    simp only at hd
    rw [hd]

/-- The replacement by `/^Started$/` empties exactly the string `Started`. -/
theorem replaceStarted_eq (s : String) :
    replaceStarted s = if s = "Started" then "" else s := by
  by_cases hs : s = "Started"
  · subst hs
    simp only [if_true]
    decide
  · simp only [if_neg hs]
    unfold replaceStarted
    have hnone : (List.range (s.length + 1)).find? (matchStartedAt s.data) = none := by
      rw [List.find?_eq_none]
      intro i _
      simp [matchStartedAt_false s hs i]
    rw [hnone]

/-! ## Java executable resolution, status events, the installed check -/

theorem truthy_some (v : String) (hv : v ≠ "") : truthy (some v) = true := by
  simp [truthy, hv]

/-- C1: a source is set when its value is truthy (a non-empty string), which is the test
`j => j` of `getJavaPath`. With the user setting, `JDK_HOME` and `JAVA_HOME` all set,
`getJavaCommand` returns `path.join(u, 'bin', 'java')` for the user setting `u`; with the
user setting unset and both variables set it returns `path.join(a, 'bin', 'java')` for
the `JDK_HOME` value `a`; with none of the three set it returns `java`. -/
theorem getJavaCommand_priority (h : Host) (u a b : String) :
    (h.javaHome = some u → u ≠ "" → h.jdkHome = some a → a ≠ "" →
      h.javaHomeEnv = some b → b ≠ "" → getJavaCommand h = h.join [u, "bin", "java"]) ∧
    (truthy h.javaHome = false → h.jdkHome = some a → a ≠ "" →
      h.javaHomeEnv = some b → b ≠ "" → getJavaCommand h = h.join [a, "bin", "java"]) ∧
    (truthy h.javaHome = false → truthy h.jdkHome = false → truthy h.javaHomeEnv = false →
      getJavaCommand h = "java") := by
  refine ⟨?_, ?_, ?_⟩
  · intro hu hu0 _ _ _ _
    simp [getJavaCommand, getJavaPath, List.find?, hu, truthy_some u hu0]
  · intro hu ha ha0 _ _
    simp [getJavaCommand, getJavaPath, List.find?, hu, ha, truthy_some a ha0]
  · intro hu ha hb
    simp [getJavaCommand, getJavaPath, List.find?, hu, ha, hb]

theorem getJavaCommand_priority_witness :
    getJavaCommand allSetHost = allSetHost.join ["/opt/u", "bin", "java"] ∧
    getJavaCommand envSetHost = envSetHost.join ["/opt/a", "bin", "java"] ∧
    getJavaCommand linuxHost = "java" :=
  ⟨(getJavaCommand_priority allSetHost "/opt/u" "/opt/a" "/opt/b").1
      rfl (by decide) rfl (by decide) rfl (by decide),
   (getJavaCommand_priority envSetHost "/opt/u" "/opt/a" "/opt/b").2.1
      (by decide) rfl (by decide) rfl (by decide),
   (getJavaCommand_priority linuxHost "" "" "").2.2 (by decide) (by decide) (by decide)⟩

/-- C3: for every `language/status` event the handler sets the status text to the name,
a space, `t`, a space and the message, where `t` is empty when `type` is exactly
`Started` and is `type` otherwise; `Started` with `indexing` gives two spaces, and
`StartedUp` and `NotStarted` are left intact. -/
theorem status_event_text (h : Host) (s : Client) (type message : String) :
    (onLanguageStatus h s type message).statusText =
        h.name ++ " " ++ (if type = "Started" then "" else type) ++ " " ++ message ∧
    (onLanguageStatus h s "Started" "indexing").statusText = h.name ++ "  indexing" ∧
    (onLanguageStatus h s "StartedUp" message).statusText = h.name ++ " StartedUp " ++ message ∧
    (onLanguageStatus h s "NotStarted" message).statusText =
        h.name ++ " NotStarted " ++ message := by
  refine ⟨?_, ?_, ?_, ?_⟩
  · simp only [onLanguageStatus, updateStatusBar, replaceStarted_eq, String.append_assoc]
  · simp only [onLanguageStatus, updateStatusBar, replaceStarted_eq, if_true,
      String.append_assoc]
    rfl
  · simp only [onLanguageStatus, updateStatusBar, replaceStarted_eq, String.append_assoc]
    rfl
  · simp only [onLanguageStatus, updateStatusBar, replaceStarted_eq, String.append_assoc]
    rfl

theorem fileExistsResult_false_iff (error : Option String) :
    fileExistsResult error = false ↔ error = some "ENOENT" := by
  cases error with
  | none => simp [fileExistsResult]
  | some code => simp [fileExistsResult]

theorem fileExistsResult_of_exists (h : Host) (fs : FS) (path : String)
    (hexists : pathExists fs path = true) : fileExistsResult (fsAccess h fs path) = true := by
  unfold pathExists at hexists
  unfold fsAccess
  cases hl : List.lookup path fs with
  | none => simp [hl] at hexists
  | some r => cases r <;> simp [fileExistsResult]

theorem fsAccess_of_missing (h : Host) (fs : FS) (path : String)
    (hmissing : pathExists fs path = false)
    (hcheck : fileExistsResult (fsAccess h fs path) = true) :
    ∃ code, h.accessFault fs path = some code ∧ code ≠ "ENOENT" := by
  unfold pathExists at hmissing
  unfold fsAccess at hcheck
  cases hl : List.lookup path fs with
  | some r => simp [hl] at hmissing
  | none =>
    rw [hl] at hcheck
    cases hf : h.accessFault fs path with
    | none => simp [hf, fileExistsResult] at hcheck
    | some code =>
      refine ⟨code, rfl, ?_⟩
      simpa [hf, fileExistsResult] using hcheck

/-- C6 as stated fails: the launcher is present but not readable, the access check
reports `EACCES`, and `isServerInstalled` still resolves with `true`. -/
theorem isServerInstalled_unreadable_launcher :
    fsAccess linuxHost [(linuxHost.join ["/pkg/server", serverLauncher], false)]
        (linuxHost.join ["/pkg/server", serverLauncher]) = some "EACCES" ∧
    (isServerInstalled linuxHost
        (constructor [(linuxHost.join ["/pkg/server", serverLauncher], false)])
        "/pkg/server").1 = Except.ok true := by
  constructor <;> decide

/-- C6, amended: the server is considered installed only if the access check on the
launcher path does not report `ENOENT`. Whenever the check reports `ENOENT`,
`isServerInstalled` resolves with `false`; whenever it reports an error with any other
code, such as `EACCES` for a launcher that is present but not readable,
`isServerInstalled` resolves with `true`. -/
theorem isServerInstalled_false_on_enoent (h : Host) (s : Client) (serverHome : String) :
    (fsAccess h s.fs (h.join [serverHome, serverLauncher]) = some "ENOENT" →
      (isServerInstalled h s serverHome).1 = Except.ok false) ∧
    (∀ code, fsAccess h s.fs (h.join [serverHome, serverLauncher]) = some code →
      code ≠ "ENOENT" → (isServerInstalled h s serverHome).1 = Except.ok true) := by
  constructor
  · intro herror
    simp [isServerInstalled, fileExists, herror, fileExistsResult]
  · intro code herror hcode
    simp [isServerInstalled, fileExists, herror, fileExistsResult, hcode]

theorem isServerInstalled_false_on_enoent_witness :
    (isServerInstalled linuxHost (constructor []) "/pkg/server").1 = Except.ok false ∧
    (isServerInstalled pluginsFileHost (constructor [("/pkg/server/plugins", true)])
      "/pkg/server").1 = Except.ok true :=
  ⟨(isServerInstalled_false_on_enoent linuxHost (constructor []) "/pkg/server").1 (by decide),
   (isServerInstalled_false_on_enoent pluginsFileHost
      (constructor [("/pkg/server/plugins", true)]) "/pkg/server").2 "ENOTDIR"
      (by decide) (by decide)⟩

theorem getProperty_platformConfig_undefined (p : String)
    (hs : p ∉ ["win32", "darwin", "linux"]) (hp : p ∉ objectPrototypeKeys) :
    getProperty platformConfig p = Lookup.undefined := by
  simp only [List.mem_cons, List.mem_singleton, not_or, List.not_mem_nil, or_false] at hs
  obtain ⟨h1, h2, h3⟩ := hs
  have hl : List.lookup p platformConfig = none := by
    have e1 : (p == "win32") = false := by simpa using h1
    have e2 : (p == "darwin") = false := by simpa using h2
    have e3 : (p == "linux") = false := by simpa using h3
    simp [platformConfig, List.lookup, e1, e2, e3]
  simp [getProperty, hl, hp]

/-- C2: a platform identifier is a value of `process.platform`, and none of those is the
name of a member of `Object.prototype`. For every such identifier outside `win32`,
`darwin` and `linux`, `startServerProcess` fails with the message
`Eclipse JDT not supported on <platform>` and leaves the client and the world as they
were: no file check, no directory, no download, no unpacking, no subprocess. -/
theorem startServerProcess_unsupported (h : Host) (s : Client)
    (hunsupported : h.platform ∉ ["win32", "darwin", "linux"])
    (hplatform : h.platform ∉ objectPrototypeKeys) :
    startServerProcess h s =
      (Except.error ("Eclipse JDT not supported on " ++ h.platform), s) := by
  unfold startServerProcess
  rw [getProperty_platformConfig_undefined h.platform hunsupported hplatform]
  rfl

theorem startServerProcess_unsupported_witness :
    startServerProcess freebsdHost (constructor []) =
      (Except.error ("Eclipse JDT not supported on " ++ freebsdHost.platform), constructor []) :=
  startServerProcess_unsupported freebsdHost (constructor []) (by decide) (by decide)

/-- C4: for a notification whose message contains `Classpath is incomplete`: with the
flag set nothing happens at all (no prompt, no log entry, the client is unchanged);
with the flag clear the notification is rendered on the channel of its severity, as an
error, warning or info prompt for 1, 2 and 3 and as a log entry for 4. -/
theorem classpath_notification (s : Client) (n : Notification)
    (hmessage : includes n.message "Classpath is incomplete" = true) :
    (s.ignoreIncompleteClasspath = true → actionableNotification s n = s) ∧
    (s.ignoreIncompleteClasspath = false →
      (n.severity = 1 → (actionableNotification s n).prompts =
        s.prompts ++ [{ channel := Channel.error, message := n.message, options := promptOptions n }]) ∧
      (n.severity = 2 → (actionableNotification s n).prompts =
        s.prompts ++ [{ channel := Channel.warning, message := n.message, options := promptOptions n }]) ∧
      (n.severity = 3 → (actionableNotification s n).prompts =
        s.prompts ++ [{ channel := Channel.info, message := n.message, options := promptOptions n }]) ∧
      (n.severity = 4 → (actionableNotification s n).prompts = s.prompts ∧
        (actionableNotification s n).trace = s.trace ++ [Effect.consoleLog n.message])) := by
  constructor
  · intro hflag
    simp [actionableNotification, hflag, hmessage]
  · intro hflag
    refine ⟨?_, ?_, ?_, ?_⟩ <;> intro hsev <;>
      simp [actionableNotification, hflag, hsev, createNotification, addNotification,
        promptOptions, getServerName, emit]

theorem classpath_notification_witness :
    actionableNotification { constructor [] with ignoreIncompleteClasspath := true }
        classpathWarning = { constructor [] with ignoreIncompleteClasspath := true } ∧
    (actionableNotification (constructor []) classpathWarning).prompts =
      [{ channel := Channel.warning, message := classpathWarning.message,
         options := promptOptions classpathWarning }] :=
  ⟨(classpath_notification { constructor [] with ignoreIncompleteClasspath := true }
      classpathWarning (by decide)).1 rfl,
   ((classpath_notification (constructor []) classpathWarning (by decide)).2 rfl).2.1 rfl⟩

theorem getProperty_commands_registered :
    ∃ f, getProperty commands "java.ignoreIncompleteClasspath" = Lookup.own f ∧
      ∀ s : Client, f s = { s with ignoreIncompleteClasspath := true } :=
  ⟨_, rfl, fun _ => rfl⟩

theorem getProperty_commands_undefined (c : String)
    (hc : c ≠ "java.ignoreIncompleteClasspath") (hp : c ∉ objectPrototypeKeys) :
    getProperty commands c = Lookup.undefined := by
  have e1 : (c == "java.ignoreIncompleteClasspath") = false := by simpa using hc
  have hl : List.lookup c commands = none := by
    simp [commands, List.lookup, e1]
  simp [getProperty, hl, hp]

theorem getProperty_commands_inherited (c : String) (hp : c ∈ objectPrototypeKeys) :
    getProperty commands c = Lookup.inherited c := by
  have hc : c ≠ "java.ignoreIncompleteClasspath" := by
    intro hc
    rw [hc] at hp
    revert hp
    decide
  have e1 : (c == "java.ignoreIncompleteClasspath") = false := by simpa using hc
  have hl : List.lookup c commands = none := by
    simp [commands, List.lookup, e1]
  simp [getProperty, hl, hp]

theorem click_button (h : Host) (s : Client) (id button : Nat) (p : Prompt)
    (bs : List Button) (b : Button) (hp : s.prompts.get? id = some p)
    (hbs : p.options.buttons = some bs) (hb : bs.get? button = some b) :
    click h s id button = onActionableButton h s id b.command := by
  simp only [click, hp, hbs, hb]

/-- A click on a button bound to the registered command calls its function once with no
arguments, which sets the flag, writes nothing to the log and dismisses the prompt once. -/
theorem click_registered_command (h : Host) (s : Client) (id button : Nat) (p : Prompt)
    (bs : List Button) (b : Button) (hp : s.prompts.get? id = some p)
    (hbs : p.options.buttons = some bs) (hb : bs.get? button = some b)
    (hc : b.command = "java.ignoreIncompleteClasspath") :
    click h s id button =
      (Except.ok (), { s with
        ignoreIncompleteClasspath := true
        trace := s.trace ++ [Effect.call "java.ignoreIncompleteClasspath", Effect.dismiss id] }) := by
  rw [click_button h s id button p bs b hp hbs hb, hc]
  simp [onActionableButton, getProperty, commands, List.lookup, emit]

/-- A click on a button bound to a name that is neither registered nor inherited from
`Object.prototype` logs the unknown command, calls nothing and dismisses the prompt once. -/
theorem click_unknown_command (h : Host) (s : Client) (id button : Nat) (p : Prompt)
    (bs : List Button) (b : Button) (hp : s.prompts.get? id = some p)
    (hbs : p.options.buttons = some bs) (hb : bs.get? button = some b)
    (hc : b.command ≠ "java.ignoreIncompleteClasspath") (hi : b.command ∉ objectPrototypeKeys) :
    click h s id button =
      (Except.ok (), { s with
        trace := s.trace ++
          [Effect.consoleLog ("Unknown actionableNotification command '" ++ b.command ++ "'"),
           Effect.dismiss id] }) := by
  rw [click_button h s id button p bs b hp hbs hb]
  simp [onActionableButton, getProperty_commands_undefined b.command hc hi, emit]

/-- C5 at the failing input: the prompt of `inheritedNameNotification` has one button,
bound to `toString`, which is not an own property of `this.commands`. The click finds
the inherited `Object.prototype.toString`, calls it and writes no unknown-command
entry (nor any other entry) to the log. -/
theorem click_inherited_name (h : Host) :
    List.lookup "toString" commands = none ∧
    (actionableNotification (constructor []) inheritedNameNotification).prompts =
      [{ channel := Channel.error, message := "Build failed",
         options := promptOptions inheritedNameNotification }] ∧
    (click h (actionableNotification (constructor []) inheritedNameNotification) 0 0).2.trace =
      [Effect.addNotification Channel.error "Build failed" 0, Effect.callInherited "toString"] ++
        (if h.inheritedCallReturns "toString" then [Effect.dismiss 0] else []) ∧
    ∀ msg, Effect.consoleLog msg ∉
      (click h (actionableNotification (constructor []) inheritedNameNotification) 0 0).2.trace := by
  have htrace :
      (click h (actionableNotification (constructor []) inheritedNameNotification) 0 0).2.trace =
      [Effect.addNotification Channel.error "Build failed" 0, Effect.callInherited "toString"] ++
        (if h.inheritedCallReturns "toString" then [Effect.dismiss 0] else []) := by
    have hclick := click_button h
      (actionableNotification (constructor []) inheritedNameNotification) 0 0
      { channel := Channel.error, message := "Build failed",
        options := promptOptions inheritedNameNotification }
      [{ text := "Fix", command := "toString" }] { text := "Fix", command := "toString" }
      (by decide) (by decide) (by decide)
    rw [hclick]
    simp only [onActionableButton, getProperty_commands_inherited "toString" (by decide)]
    cases h.inheritedCallReturns "toString" <;> simp <;> decide
  refine ⟨rfl, by decide, htrace, ?_⟩
  intro msg
  rw [htrace]
  cases h.inheritedCallReturns "toString" <;> simp

theorem installServerIfRequired_of_exists (h : Host) (s : Client) (serverHome : String)
    (hexists : pathExists s.fs (h.join [serverHome, serverLauncher]) = true) :
    installServerIfRequired h s serverHome =
      (Except.ok (), emit s (Effect.access (h.join [serverHome, serverLauncher]))) := by
  simp [installServerIfRequired, isServerInstalled, fileExists, thenDo,
    fileExistsResult_of_exists h s.fs _ hexists]

theorem installRepeatedly_of_exists (h : Host) (serverHome : String) (n : Nat) (s : Client)
    (hexists : pathExists s.fs (h.join [serverHome, serverLauncher]) = true) :
    installRepeatedly h serverHome n s =
      { s with trace := s.trace ++
          List.replicate n (Effect.access (h.join [serverHome, serverLauncher])) } := by
  induction n generalizing s with
  | zero => simp [installRepeatedly]
  | succ k ih =>
    rw [installRepeatedly, installServerIfRequired_of_exists h s serverHome hexists]
    rw [ih (emit s _) (by simpa [emit] using hexists)]
    simp [emit, List.replicate_succ]

/-- C7: when the launcher exists under the install root, `installServerIfRequired`
resolves and only checks the launcher: it creates no directory, downloads, unpacks and
unlinks nothing and leaves the status text alone. The same holds for the call after any
number of earlier calls. -/
theorem installServerIfRequired_installed (h : Host) (s : Client) (serverHome : String)
    (n : Nat) (hexists : pathExists s.fs (h.join [serverHome, serverLauncher]) = true) :
    installServerIfRequired h (installRepeatedly h serverHome n s) serverHome =
      (Except.ok (),
        { s with trace := s.trace ++
                   List.replicate (n + 1) (Effect.access (h.join [serverHome, serverLauncher])) }) := by
  rw [installRepeatedly_of_exists h serverHome n s hexists,
    installServerIfRequired_of_exists h _ serverHome (by simpa using hexists)]
  simp [emit, List.replicate_succ']

theorem installServerIfRequired_installed_witness :
    installServerIfRequired linuxHost
        (installRepeatedly linuxHost "/pkg/server" 2
          (constructor [(linuxHost.join ["/pkg/server", serverLauncher], true)]))
        "/pkg/server" =
      (Except.ok (),
        { constructor [(linuxHost.join ["/pkg/server", serverLauncher], true)] with
          trace := (constructor [(linuxHost.join ["/pkg/server", serverLauncher], true)]).trace ++
                     List.replicate (2 + 1)
                       (Effect.access (linuxHost.join ["/pkg/server", serverLauncher])) }) :=
  installServerIfRequired_installed linuxHost
    (constructor [(linuxHost.join ["/pkg/server", serverLauncher], true)]) "/pkg/server" 2
    (by decide)

theorem foldl_progress (h : Host) (percents : List String) (s : Client) :
    percents.foldl
        (fun st percent => updateStatusBar h st ("downloading " ++ percent ++ "%")) s =
      { s with statusText := statusAfterProgress h percents s.statusText,
               trace := s.trace ++ downloadingEvents percents } := by
  induction percents generalizing s with
  | nil => simp [statusAfterProgress, downloadingEvents]
  | cons p ps ih =>
    rw [List.foldl_cons, ih]
    simp [statusAfterProgress, downloadingEvents, updateStatusBar]

theorem emit_fs (s : Client) (e : Effect) : (emit s e).fs = s.fs := rfl

theorem updateStatusBar_fs (h : Host) (s : Client) (text : String) :
    (updateStatusBar h s text).fs = s.fs := rfl

theorem fileExists_eq (h : Host) (s : Client) (path : String) :
    fileExists h s path =
      (Except.ok (fileExistsResult (fsAccess h s.fs path)), emit s (Effect.access path)) := rfl

theorem thenDo_ok {α β : Type} (f : α → Client → Settled β) (a : α) (s : Client) :
    thenDo f (Except.ok a, s) = f a s := rfl

theorem thenDo_error {α β : Type} (f : α → Client → Settled β) (e : String) (s : Client) :
    thenDo f (Except.error e, s) = (Except.error e, s) := rfl

theorem installServer_missing_launcher (h : Host) (s : Client) (serverHome : String)
    (fs1 fs2 fs3 : FS)
    (hdir : (if fileExistsResult (fsAccess h s.fs serverHome) then Except.ok s.fs
      else mkdirSync h s.fs serverHome) = Except.ok fs1)
    (hdownload : (h.downloadFile fs1 serverDownloadUrl (h.join [serverHome, "download.tar.gz"])
      serverDownloadSize).result = Except.ok fs2)
    (hunpack : h.decompress fs2 (h.join [serverHome, "download.tar.gz"]) serverHome =
      Except.ok fs3)
    (hverify : fsAccess h fs3 (h.join [serverHome, serverLauncher]) = some "ENOENT") :
    installServer h s serverHome =
      (Except.error installError,
        { s with
          fs := fs3
          statusText := h.name ++ " unpacking"
          trace := s.trace ++ (beforeDownload h s (h.join [serverHome, "download.tar.gz"])
              serverHome ++
            [Effect.download serverDownloadUrl (h.join [serverHome, "download.tar.gz"])
              serverDownloadSize] ++
            downloadingEvents (h.downloadFile fs1 serverDownloadUrl
              (h.join [serverHome, "download.tar.gz"]) serverDownloadSize).progress ++
            [Effect.updateStatusBar "unpacking",
             Effect.decompress (h.join [serverHome, "download.tar.gz"]) serverHome,
             Effect.access (h.join [serverHome, serverLauncher])]) }) := by
  have hfalse : fileExistsResult (some "ENOENT") = false := rfl
  by_cases hd : fileExistsResult (fsAccess h s.fs serverHome) = true
  · simp only [hd, if_true, Except.ok.injEq] at hdir
    subst hdir
    simp only [installServer, fileExists_eq, thenDo_ok, thenDo_error, emit_fs, hd,
      Bool.not_true, Bool.false_eq_true, if_false, callDownloadFile, foldl_progress, hdownload,
      updateStatusBar_fs, callDecompress, hunpack, hverify, hfalse, Bool.not_false, if_true]
    simp [updateStatusBar, emit, beforeDownload, hd, String.append_assoc]
  · simp only [Bool.not_eq_true] at hd
    simp only [hd, Bool.false_eq_true, if_false] at hdir
    simp only [installServer, fileExists_eq, thenDo_ok, thenDo_error, emit_fs, hd,
      Bool.not_true, Bool.false_eq_true, if_false, callDownloadFile, foldl_progress, hdownload,
      updateStatusBar_fs, callDecompress, hunpack, hverify, hfalse, Bool.not_false, if_true,
      callMkdirSync, hdir]
    simp [updateStatusBar, emit, beforeDownload, hd, String.append_assoc]

theorem downloading_ne_installed (percent : String) :
    "downloading " ++ percent ++ "%" ≠ "installed" := by
  intro heq
  have hdata := congrArg String.data heq
  simp [String.data_append] at hdata

theorem installServerIfRequired_of_missing (h : Host) (s : Client) (serverHome : String)
    (hmissing : fsAccess h s.fs (h.join [serverHome, serverLauncher]) = some "ENOENT") :
    installServerIfRequired h s serverHome =
      installServer h (emit s (Effect.access (h.join [serverHome, serverLauncher]))) serverHome := by
  simp [installServerIfRequired, isServerInstalled, fileExists_eq, thenDo_ok, hmissing,
    fileExistsResult]

theorem startServerProcess_error (h : Host) (s st : Client) (e : String)
    (hplatform : h.platform ∈ ["win32", "darwin", "linux"])
    (hinstall : installServerIfRequired h s (h.join [h.dirname, "..", "server"]) =
      (Except.error e, st)) :
    startServerProcess h s = (Except.error e, st) := by
  simp only [List.mem_cons, List.mem_singleton, List.not_mem_nil, or_false] at hplatform
  rcases hplatform with hp | hp | hp <;>
    simp [startServerProcess, hp, getProperty, platformConfig, List.lookup, hinstall, thenDo_error]

/-- C8: the platform is supported and the access check reports the launcher missing
(`ENOENT`), so `startServerProcess` installs. When the install root is there or gets
created, the download completes and the unpacking completes, but the check after the
unpacking still reports the launcher missing, `installServer`
fails with `Failed to install the Eclipse JDT language server`, and so do
`installServerIfRequired` and `startServerProcess`: no process handle is returned, no
subprocess is spawned, and `updateStatusBar` is never called with `installed` (the status
text stays at `unpacking`). -/
theorem install_failure_propagates (h : Host) (s : Client) (fs1 fs2 fs3 : FS)
    (hplatform : h.platform ∈ ["win32", "darwin", "linux"])
    (hmissing : fsAccess h s.fs
      (h.join [h.join [h.dirname, "..", "server"], serverLauncher]) = some "ENOENT")
    (hdir : (if fileExistsResult (fsAccess h s.fs (h.join [h.dirname, "..", "server"]))
      then Except.ok s.fs
      else mkdirSync h s.fs (h.join [h.dirname, "..", "server"])) = Except.ok fs1)
    (hdownload : (h.downloadFile fs1 serverDownloadUrl
      (h.join [h.join [h.dirname, "..", "server"], "download.tar.gz"])
      serverDownloadSize).result = Except.ok fs2)
    (hunpack : h.decompress fs2 (h.join [h.join [h.dirname, "..", "server"], "download.tar.gz"])
      (h.join [h.dirname, "..", "server"]) = Except.ok fs3)
    (hverify : fsAccess h fs3
      (h.join [h.join [h.dirname, "..", "server"], serverLauncher]) = some "ENOENT") :
    (installServer h s (h.join [h.dirname, "..", "server"])).1 =
      Except.error "Failed to install the Eclipse JDT language server" ∧
    (installServerIfRequired h s (h.join [h.dirname, "..", "server"])).1 =
      Except.error "Failed to install the Eclipse JDT language server" ∧
    (startServerProcess h s).1 =
      Except.error "Failed to install the Eclipse JDT language server" ∧
    (∃ new, (startServerProcess h s).2.trace = s.trace ++ new ∧
      (∀ command args cwd, Effect.spawn command args cwd ∉ new) ∧
      Effect.updateStatusBar "installed" ∉ new) ∧
    (startServerProcess h s).2.statusText = h.name ++ " unpacking" := by
  have hmsg : installError = "Failed to install the Eclipse JDT language server" := by decide
  have hinstall := installServer_missing_launcher h s _ fs1 fs2 fs3 hdir hdownload hunpack hverify
  have hrequired := installServerIfRequired_of_missing h s _ hmissing
  rw [installServer_missing_launcher h (emit s _) _ fs1 fs2 fs3 hdir hdownload hunpack hverify]
    at hrequired
  have hstart := startServerProcess_error h s _ _ hplatform hrequired
  refine ⟨?_, ?_, ?_, ?_, ?_⟩
  · rw [hinstall, hmsg]
  · rw [hrequired, hmsg]
  · rw [hstart, hmsg]
  · rw [hstart]
    refine ⟨_, by simp only [emit, List.append_assoc]; rfl, ?_, ?_⟩
    · intro command args cwd
      simp [beforeDownload, downloadingEvents]
    · simp [beforeDownload, downloadingEvents]
      intro percent _
      exact downloading_ne_installed percent
  · rw [hstart]

theorem install_failure_propagates_witness :
    (installServer brokenArchiveHost (constructor [])
      (brokenArchiveHost.join [brokenArchiveHost.dirname, "..", "server"])).1 =
      Except.error "Failed to install the Eclipse JDT language server" ∧
    (installServerIfRequired brokenArchiveHost (constructor [])
      (brokenArchiveHost.join [brokenArchiveHost.dirname, "..", "server"])).1 =
      Except.error "Failed to install the Eclipse JDT language server" ∧
    (startServerProcess brokenArchiveHost (constructor [])).1 =
      Except.error "Failed to install the Eclipse JDT language server" ∧
    (∃ new, (startServerProcess brokenArchiveHost (constructor [])).2.trace =
        (constructor []).trace ++ new ∧
      (∀ command args cwd, Effect.spawn command args cwd ∉ new) ∧
      Effect.updateStatusBar "installed" ∉ new) ∧
    (startServerProcess brokenArchiveHost (constructor [])).2.statusText =
      brokenArchiveHost.name ++ " unpacking" :=
  install_failure_propagates brokenArchiveHost (constructor [])
    [("/pkg/server", true)]
    [("/pkg/server/download.tar.gz", true), ("/pkg/server", true)]
    [("/pkg/server/readme", true), ("/pkg/server/download.tar.gz", true), ("/pkg/server", true)]
    (by decide) (by decide) (by decide) (by decide) (by decide) (by decide)

theorem lookup_filter_self (fs : FS) (p : String) :
    List.lookup p (fs.filter (fun e => e.1 != p)) = none := by
  induction fs with
  | nil => rfl
  | cons e rest ih =>
    obtain ⟨q, r⟩ := e
    by_cases hq : q = p
    · subst hq
      simpa [List.filter] using ih
    · have hne : (q != p) = true := by simpa using hq
      have hpq : (p == q) = false := by simpa using fun hpq : p = q => hq hpq.symm
      simp [List.filter, hne, List.lookup, hpq, ih]

theorem lookup_filter_of_ne (fs : FS) (p q : String) (hne : q ≠ p) :
    List.lookup q (fs.filter (fun e => e.1 != p)) = List.lookup q fs := by
  induction fs with
  | nil => rfl
  | cons e rest ih =>
    obtain ⟨k, r⟩ := e
    by_cases hk : k = p
    · subst hk
      have hqk : (q == k) = false := by simpa using hne
      simpa [List.filter, List.lookup, hqk] using ih
    · have hkp : (k != p) = true := by simpa using hk
      by_cases hqk : q = k
      · subst hqk
        simp [List.filter, hkp, List.lookup]
      · have hqk2 : (q == k) = false := by simpa using hqk
        simp [List.filter, hkp, List.lookup, hqk2, ih]

theorem thenDo_eq_ok {α β : Type} (f : α → Client → Settled β) (r : Settled α) (b : β)
    (s1 : Client) (hr : thenDo f r = (Except.ok b, s1)) :
    ∃ a s0, r = (Except.ok a, s0) ∧ f a s0 = (Except.ok b, s1) := by
  obtain ⟨o, s0⟩ := r
  cases o with
  | error e => simp [thenDo] at hr
  | ok a => exact ⟨a, s0, rfl, hr⟩

theorem callUnlinkSync_eq_ok (h : Host) (s s1 : Client) (path : String)
    (hr : callUnlinkSync h s path = (Except.ok (), s1)) :
    s1 = { s with fs := s.fs.filter (fun e => e.1 != path),
                  trace := s.trace ++ [Effect.unlink path] } := by
  unfold callUnlinkSync unlinkSync at hr
  cases hf : h.unlinkFault s.fs path with
  | some e => simp [hf] at hr
  | none =>
    by_cases hp : pathExists s.fs path = true
    · simp [hf, hp, emit] at hr
      exact hr.symm
    · simp [hf, hp] at hr

theorem callDecompress_eq_ok (h : Host) (s s1 : Client) (file dir : String)
    (hr : callDecompress h s file dir = (Except.ok (), s1)) :
    h.decompress s.fs file dir = Except.ok s1.fs ∧
    s1 = { s with fs := s1.fs, trace := s.trace ++ [Effect.decompress file dir] } := by
  unfold callDecompress at hr
  cases hd : h.decompress s.fs file dir with
  | error e => simp [hd] at hr
  | ok fs =>
    simp [hd, emit] at hr
    subst hr
    exact ⟨rfl, rfl⟩

theorem callDownloadFile_eq_ok (h : Host) (s s1 : Client) (url file : String) (size : Nat)
    (hr : callDownloadFile h s url file size = (Except.ok (), s1)) :
    s1.trace = s.trace ++ [Effect.download url file size] ++
      downloadingEvents (h.downloadFile s.fs url file size).progress := by
  simp only [callDownloadFile, foldl_progress] at hr
  cases hd : (h.downloadFile s.fs url file size).result with
  | error e => simp [hd] at hr
  | ok fs =>
    simp [hd, emit] at hr
    subst hr
    simp

theorem callMkdirSync_eq_ok (h : Host) (s s1 : Client) (path : String)
    (hr : callMkdirSync h s path = (Except.ok (), s1)) :
    s1.trace = s.trace ++ [Effect.mkdir path] := by
  unfold callMkdirSync at hr
  cases hd : mkdirSync h s.fs path with
  | error e => simp [hd] at hr
  | ok fs =>
    simp [hd, emit] at hr
    subst hr
    rfl

/-- C9 as stated fails: the archive unpacks `plugins` as a regular file, so no launcher
exists under the install root; the access check on the launcher reports `ENOTDIR`, which
is not `ENOENT`, and `installServer` resolves, shows `installed` and unlinks the archive. -/
theorem installServer_resolves_without_launcher :
    (installServer pluginsFileHost (constructor []) "/pkg/server").1 = Except.ok () ∧
    pathExists (installServer pluginsFileHost (constructor []) "/pkg/server").2.fs
      (pluginsFileHost.join ["/pkg/server", serverLauncher]) = false ∧
    (installServer pluginsFileHost (constructor []) "/pkg/server").2.statusText =
      "Java (Eclipse JDT) installed" := by
  decide

/-- C9, amended: after every run of `installServer` that resolves, the archive
`<install root>/download.tar.gz` does not exist, and the access check on the launcher
made after the unpacking did not report `ENOENT`: the launcher exists, or it does not
and the check reported another error for it (the launcher and the archive being
different paths). The calls were made in this order: the install root is checked and
created when absent, the download runs, the archive is unpacked, the launcher is
checked, and last the archive is unlinked. -/
theorem installServer_success (h : Host) (s s1 : Client) (serverHome : String)
    (hrun : installServer h s serverHome = (Except.ok (), s1))
    (hpaths : h.join [serverHome, serverLauncher] ≠ h.join [serverHome, "download.tar.gz"]) :
    pathExists s1.fs (h.join [serverHome, "download.tar.gz"]) = false ∧
    (∃ fsD fsV, h.decompress fsD (h.join [serverHome, "download.tar.gz"]) serverHome =
        Except.ok fsV ∧
      s1.fs = fsV.filter (fun e => e.1 != h.join [serverHome, "download.tar.gz"]) ∧
      fsAccess h fsV (h.join [serverHome, serverLauncher]) ≠ some "ENOENT" ∧
      (pathExists s1.fs (h.join [serverHome, serverLauncher]) = true ∨
        ∃ code, h.accessFault fsV (h.join [serverHome, serverLauncher]) = some code ∧
          code ≠ "ENOENT")) ∧
    ∃ percents, s1.trace = s.trace ++
      (beforeDownload h s (h.join [serverHome, "download.tar.gz"]) serverHome ++
        [Effect.download serverDownloadUrl (h.join [serverHome, "download.tar.gz"])
          serverDownloadSize] ++
        downloadingEvents percents ++
        [Effect.updateStatusBar "unpacking",
         Effect.decompress (h.join [serverHome, "download.tar.gz"]) serverHome,
         Effect.access (h.join [serverHome, serverLauncher]),
         Effect.updateStatusBar "installed",
         Effect.unlink (h.join [serverHome, "download.tar.gz"])]) := by
  unfold installServer at hrun
  obtain ⟨_, sU, h8, hunlink⟩ := thenDo_eq_ok _ _ _ _ hrun
  obtain ⟨_, sI, h7, hstatus⟩ := thenDo_eq_ok _ _ _ _ h8
  obtain ⟨found, sC, h6, hcheck⟩ := thenDo_eq_ok _ _ _ _ h7
  obtain ⟨_, sV, h5, hverify⟩ := thenDo_eq_ok _ _ _ _ h6
  obtain ⟨_, sD, h4, hunpack⟩ := thenDo_eq_ok _ _ _ _ h5
  obtain ⟨_, sP, h3, hunpacking⟩ := thenDo_eq_ok _ _ _ _ h4
  obtain ⟨_, sL, h2, hdownload⟩ := thenDo_eq_ok _ _ _ _ h3
  obtain ⟨doesExist, s0, h0, hmkdir⟩ := thenDo_eq_ok _ _ _ _ h2
  rw [fileExists_eq] at h0 hverify
  simp only [Prod.mk.injEq, Except.ok.injEq] at h0 hverify hunpacking hstatus
  obtain ⟨hexists, hs0⟩ := h0
  obtain ⟨hfound, hsC⟩ := hverify
  have hfound1 : found = true := by
    cases found with
    | true => rfl
    | false => simp at hcheck
  have hsI : sI = sC := by
    rw [hfound1] at hcheck
    simp at hcheck
    exact hcheck.symm
  have hsL : sL.trace = s0.trace ++
      (if fileExistsResult (fsAccess h s.fs serverHome) then [] else
        [Effect.mkdir serverHome]) := by
    rw [emit_fs] at hexists
    cases hd : fileExistsResult (fsAccess h s.fs serverHome) with
    | true =>
      rw [hd] at hexists
      rw [← hexists] at hmkdir
      simp at hmkdir
      simp [hmkdir]
    | false =>
      rw [hd] at hexists
      rw [← hexists] at hmkdir
      simp at hmkdir
      simpa using callMkdirSync_eq_ok h s0 sL serverHome hmkdir
  have hsP := callDownloadFile_eq_ok h sL sP _ _ _ hdownload
  obtain ⟨hdec, hsV⟩ := callDecompress_eq_ok h sD sV _ _ hunpack
  have hs1 := callUnlinkSync_eq_ok h sU s1 _ hunlink
  have hfsU : sU.fs = sV.fs := by
    rw [← hstatus.2, updateStatusBar_fs, hsI, ← hsC, emit_fs]
  rw [hfound1] at hfound
  have hfs1 : s1.fs = sV.fs.filter (fun e => e.1 != h.join [serverHome, "download.tar.gz"]) := by
    rw [hs1, hfsU]
  refine ⟨?_, ⟨sD.fs, sV.fs, hdec, hfs1, ?_, ?_⟩,
    ⟨(h.downloadFile sL.fs serverDownloadUrl
      (h.join [serverHome, "download.tar.gz"]) serverDownloadSize).progress, ?_⟩⟩
  · rw [hfs1]
    simp [pathExists, lookup_filter_self]
  · intro henoent
    rw [henoent] at hfound
    simp [fileExistsResult] at hfound
  · cases hl : pathExists sV.fs (h.join [serverHome, serverLauncher]) with
    | true =>
      left
      rw [hfs1]
      simpa [pathExists, lookup_filter_of_ne _ _ _ hpaths] using hl
    | false => exact Or.inr (fsAccess_of_missing h _ _ hl hfound)
  · rw [hs1]
    simp only []
    rw [← hstatus.2, hsI, ← hsC]
    simp only [updateStatusBar, emit]
    rw [hsV]
    simp only []
    rw [← hunpacking.2]
    simp only [updateStatusBar]
    rw [hsP, hsL, ← hs0]
    simp [emit, beforeDownload]

theorem installServer_success_witness :
    pathExists (installServer linuxHost (constructor []) "/pkg/server").2.fs
      (linuxHost.join ["/pkg/server", "download.tar.gz"]) = false ∧
    (∃ fsD fsV, linuxHost.decompress fsD (linuxHost.join ["/pkg/server", "download.tar.gz"])
        "/pkg/server" = Except.ok fsV ∧
      (installServer linuxHost (constructor []) "/pkg/server").2.fs =
        fsV.filter (fun e => e.1 != linuxHost.join ["/pkg/server", "download.tar.gz"]) ∧
      fsAccess linuxHost fsV (linuxHost.join ["/pkg/server", serverLauncher]) ≠ some "ENOENT" ∧
      (pathExists (installServer linuxHost (constructor []) "/pkg/server").2.fs
          (linuxHost.join ["/pkg/server", serverLauncher]) = true ∨
        ∃ code, linuxHost.accessFault fsV (linuxHost.join ["/pkg/server", serverLauncher]) =
            some code ∧ code ≠ "ENOENT")) ∧
    ∃ percents, (installServer linuxHost (constructor []) "/pkg/server").2.trace =
      (constructor []).trace ++
      (beforeDownload linuxHost (constructor [])
          (linuxHost.join ["/pkg/server", "download.tar.gz"]) "/pkg/server" ++
        [Effect.download serverDownloadUrl (linuxHost.join ["/pkg/server", "download.tar.gz"])
          serverDownloadSize] ++
        downloadingEvents percents ++
        [Effect.updateStatusBar "unpacking",
         Effect.decompress (linuxHost.join ["/pkg/server", "download.tar.gz"]) "/pkg/server",
         Effect.access (linuxHost.join ["/pkg/server", serverLauncher]),
         Effect.updateStatusBar "installed",
         Effect.unlink (linuxHost.join ["/pkg/server", "download.tar.gz"])]) :=
  installServer_success linuxHost (constructor [])
    (installServer linuxHost (constructor []) "/pkg/server").2 "/pkg/server"
    (by decide) (by decide)

theorem thenDo_flag {α β : Type} (f : α → Client → Settled β) (r : Settled α)
    (hf : ∀ a st, (f a st).2.ignoreIncompleteClasspath = st.ignoreIncompleteClasspath) :
    (thenDo f r).2.ignoreIncompleteClasspath = r.2.ignoreIncompleteClasspath := by
  obtain ⟨o, s0⟩ := r
  cases o with
  | error e => rfl
  | ok a => exact hf a s0

theorem fileExists_flag (h : Host) (s : Client) (path : String) :
    (fileExists h s path).2.ignoreIncompleteClasspath = s.ignoreIncompleteClasspath := rfl

theorem callMkdirSync_flag (h : Host) (s : Client) (path : String) :
    (callMkdirSync h s path).2.ignoreIncompleteClasspath = s.ignoreIncompleteClasspath := by
  unfold callMkdirSync
  cases mkdirSync h s.fs path <;> rfl

theorem callUnlinkSync_flag (h : Host) (s : Client) (path : String) :
    (callUnlinkSync h s path).2.ignoreIncompleteClasspath = s.ignoreIncompleteClasspath := by
  unfold callUnlinkSync
  cases unlinkSync h s.fs path <;> rfl

theorem callDecompress_flag (h : Host) (s : Client) (file dir : String) :
    (callDecompress h s file dir).2.ignoreIncompleteClasspath = s.ignoreIncompleteClasspath := by
  unfold callDecompress
  cases h.decompress s.fs file dir <;> rfl

theorem callDownloadFile_flag (h : Host) (s : Client) (url file : String) (size : Nat) :
    (callDownloadFile h s url file size).2.ignoreIncompleteClasspath =
      s.ignoreIncompleteClasspath := by
  simp only [callDownloadFile, foldl_progress]
  cases (h.downloadFile s.fs url file size).result <;> rfl

theorem installServer_flag (h : Host) (s : Client) (serverHome : String) :
    (installServer h s serverHome).2.ignoreIncompleteClasspath =
      s.ignoreIncompleteClasspath := by
  unfold installServer
  simp only []
  rw [thenDo_flag _ _ (fun _ st => callUnlinkSync_flag h st _),
    thenDo_flag _ _ (fun _ st => rfl),
    thenDo_flag _ _ (fun a st => by cases a <;> rfl),
    thenDo_flag _ _ (fun _ st => fileExists_flag h st _),
    thenDo_flag _ _ (fun _ st => callDecompress_flag h st _ _),
    thenDo_flag _ _ (fun _ st => rfl),
    thenDo_flag _ _ (fun _ st => callDownloadFile_flag h st _ _ _),
    thenDo_flag _ _ (fun a st => by
      cases a
      · exact callMkdirSync_flag h st _
      · rfl)]
  rfl

theorem installServerIfRequired_flag (h : Host) (s : Client) (serverHome : String) :
    (installServerIfRequired h s serverHome).2.ignoreIncompleteClasspath =
      s.ignoreIncompleteClasspath := by
  unfold installServerIfRequired
  rw [thenDo_flag _ _ (fun a st => by
    cases a
    · exact installServer_flag h st _
    · rfl)]
  rfl

theorem startServerProcess_flag (h : Host) (s : Client) :
    (startServerProcess h s).2.ignoreIncompleteClasspath = s.ignoreIncompleteClasspath := by
  unfold startServerProcess
  cases getProperty platformConfig h.platform with
  | undefined => rfl
  | own v =>
    simp only []
    rw [thenDo_flag _ _ (fun _ st => rfl)]
    exact installServerIfRequired_flag h s _
  | inherited key =>
    simp only []
    rw [thenDo_flag _ _ (fun _ st => rfl)]
    exact installServerIfRequired_flag h s _

theorem createNotification_flag (s : Client) (severity : Nat) (message : String)
    (options : Options) :
    (createNotification s severity message options).2.ignoreIncompleteClasspath =
      s.ignoreIncompleteClasspath := by
  unfold createNotification
  split <;> rfl

theorem actionableNotification_flag (s : Client) (n : Notification) :
    (actionableNotification s n).ignoreIncompleteClasspath = s.ignoreIncompleteClasspath := by
  unfold actionableNotification
  split
  · rfl
  · exact createNotification_flag s _ _ _

theorem onActionableButton_flag (h : Host) (s : Client) (id : Nat) (c : String)
    (hs : s.ignoreIncompleteClasspath = true) :
    (onActionableButton h s id c).2.ignoreIncompleteClasspath = true := by
  unfold onActionableButton getProperty commands
  by_cases hc : c = "java.ignoreIncompleteClasspath"
  · subst hc
    simp [List.lookup, emit]
  · have e1 : (c == "java.ignoreIncompleteClasspath") = false := by simpa using hc
    simp only [List.lookup, e1]
    split
    · rename_i heq
      split at heq <;> cases heq
    · split <;> simpa [emit] using hs
    · simpa [emit] using hs

theorem click_flag (h : Host) (s : Client) (id button : Nat)
    (hs : s.ignoreIncompleteClasspath = true) :
    (click h s id button).2.ignoreIncompleteClasspath = true := by
  unfold click
  split
  · exact hs
  · split
    · exact hs
    · split
      · exact hs
      · exact onActionableButton_flag h s id _ hs

theorem step_flag (h : Host) (s : Client) (e : Event)
    (hs : s.ignoreIncompleteClasspath = true) :
    (step h s e).ignoreIncompleteClasspath = true := by
  cases e with
  | start => simpa [step, startServerProcess_flag] using hs
  | status type message => simpa [step, onLanguageStatus, updateStatusBar] using hs
  | notification n => simpa [step, actionableNotification_flag] using hs
  | click id button => exact click_flag h s id button hs

theorem run_flag (h : Host) (events : List Event) (s : Client)
    (hs : s.ignoreIncompleteClasspath = true) :
    (run h s events).ignoreIncompleteClasspath = true := by
  induction events generalizing s with
  | nil => exact hs
  | cons e rest ih => exact ih (step h s e) (step_flag h s e hs)

/-- C10: the flag is `false` after the constructor; the function registered as
`java.ignoreIncompleteClasspath` sets it to `true`; no event the client handles (a start
of the server, a status event, a notification, a click) changes it from `true` back to
`false`; so after a click on a button bound to `java.ignoreIncompleteClasspath`, and after
any sequence of further events, a notification whose message contains
`Classpath is incomplete` is dropped: the client is left exactly as it was. -/
theorem ignore_flag_is_permanent (h : Host) :
    (∀ fs, (constructor fs).ignoreIncompleteClasspath = false) ∧
    (∃ f, getProperty commands "java.ignoreIncompleteClasspath" = Lookup.own f ∧
      ∀ s : Client, (f s).ignoreIncompleteClasspath = true) ∧
    (∀ s e, s.ignoreIncompleteClasspath = true →
      (step h s e).ignoreIncompleteClasspath = true) ∧
    (∀ (s : Client) (id button : Nat) (p : Prompt) (bs : List Button) (b : Button)
      (events : List Event) (n : Notification),
      s.prompts.get? id = some p → p.options.buttons = some bs → bs.get? button = some b →
      b.command = "java.ignoreIncompleteClasspath" →
      includes n.message "Classpath is incomplete" = true →
      actionableNotification (run h (click h s id button).2 events) n =
        run h (click h s id button).2 events) := by
  refine ⟨fun _ => rfl, ⟨_, rfl, fun _ => rfl⟩, step_flag h, ?_⟩
  intro s id button p bs b events n hp hbs hb hc hmessage
  have hclick : (click h s id button).2.ignoreIncompleteClasspath = true := by
    rw [click_registered_command h s id button p bs b hp hbs hb hc]
  have hflag := run_flag h events _ hclick
  simp [actionableNotification, hflag, hmessage]

theorem ignore_flag_is_permanent_witness :
    actionableNotification
        (run linuxHost
          (click linuxHost (actionableNotification (constructor []) classpathWarning) 0 1).2
          laterEvents)
        classpathWarning =
      run linuxHost
        (click linuxHost (actionableNotification (constructor []) classpathWarning) 0 1).2
        laterEvents :=
  (ignore_flag_is_permanent linuxHost).2.2.2
    (actionableNotification (constructor []) classpathWarning) 0 1
    { channel := Channel.warning, message := classpathWarning.message,
      options := promptOptions classpathWarning }
    [{ text := "More Information", command := "java.ignoreIncompleteClasspath.help" },
     { text := "Don't Show Again", command := "java.ignoreIncompleteClasspath" }]
    { text := "Don't Show Again", command := "java.ignoreIncompleteClasspath" }
    laterEvents classpathWarning (by decide) (by decide) (by decide) (by decide) (by decide)

end IdeJava
